import Mathlib

/-!
Shallow embedding of `src/homework.py` (a Telegram homework-status polling
bot) and verification of its specification claims.

Modelling conventions:
* Python/JSON values are modelled by the inductive type `Value`
  (None, bool, int, str, list, dict).  JSON floats do not occur in the
  claims and are not modelled.
* Python exceptions are modelled by `Exc`; functions that can raise
  return `Except Exc α`.  `str(exc)` is modelled by `excStr` (for
  `KeyError` Python renders the repr of its argument, i.e. the message
  wrapped in single quotes).
* Python `==` on the status values compared by the loop is modelled by
  the structural equality test `valueBeq`.  (The loop only ever compares
  status values, which are strings or None in every reachable case; the
  Python coercions `True == 1` etc. are irrelevant there.)
* The external world is an oracle: `HttpOutcome` says how the one HTTP
  request of a cycle behaves, `SendOutcome` says how the one Telegram
  send of a cycle behaves.
* Logging: only the log lines required by the claims are modelled (the
  critical lines of `check_tokens` and the lines of `send_message`);
  the purely diagnostic `logger.debug`/`logger.info` calls elsewhere
  carry no program state and are elided.
-/

namespace HomeworkBot

/-- A Python/JSON value as used by the program (`None`, `bool`, `int`,
`str`, `list`, `dict`). -/
inductive Value : Type where
  | vnull : Value
  | vbool (b : Bool) : Value
  | vint (n : Int) : Value
  | vstr (s : String) : Value
  | vlist (xs : List Value) : Value
  | vdict (kvs : List (String × Value)) : Value

mutual

/-- Python `repr` of a value (string escaping inside `repr` of strings is
not modelled; no message below ever reprs a string containing a quote). -/
def pyRepr : Value → String
  | .vnull => "None"
  | .vbool b => if b then "True" else "False"
  | .vint n => toString n
  | .vstr s => "\x27" ++ s ++ "\x27"
  | .vlist xs => "[" ++ pyReprItems xs ++ "]"
  | .vdict kvs => "\x7b" ++ pyReprPairs kvs ++ "\x7d"

/-- Comma-separated reprs of list items. -/
def pyReprItems : List Value → String
  | [] => ""
  | [v] => pyRepr v
  | v :: rest => pyRepr v ++ ", " ++ pyReprItems rest

/-- Comma-separated reprs of dict entries. -/
def pyReprPairs : List (String × Value) → String
  | [] => ""
  | [(k, v)] => "\x27" ++ k ++ "\x27: " ++ pyRepr v
  | (k, v) :: rest => "\x27" ++ k ++ "\x27: " ++ pyRepr v ++ ", " ++ pyReprPairs rest

end

/-- Python `str` of a value (as used inside f-strings). -/
def pyStr : Value → String
  | .vstr s => s
  | v => pyRepr v

mutual

/-- Structural equality of values, modelling Python `==` on the values the
program compares (statuses: strings or None). -/
def valueBeq : Value → Value → Bool
  | .vnull, .vnull => true
  | .vbool a, .vbool b => a == b
  | .vint a, .vint b => a == b
  | .vstr a, .vstr b => a == b
  | .vlist a, .vlist b => valueListBeq a b
  | .vdict a, .vdict b => valueDictBeq a b
  | _, _ => false

/-- Pointwise equality of value lists. -/
def valueListBeq : List Value → List Value → Bool
  | [], [] => true
  | a :: as, b :: bs => valueBeq a b && valueListBeq as bs
  | _, _ => false

/-- Pointwise equality of dict entry lists. -/
def valueDictBeq : List (String × Value) → List (String × Value) → Bool
  | [], [] => true
  | (ka, va) :: as, (kb, vb) :: bs => ka == kb && valueBeq va vb && valueDictBeq as bs
  | _, _ => false

end

/-- Dict lookup (`d[k]` / `k in d` / `d.get(k)`), first match; Python dict
keys are unique. -/
def lookup? : List (String × Value) → String → Option Value
  | [], _ => none
  | (k, v) :: rest, key => if k == key then some v else lookup? rest key

/-- Short Python type name, as in `type(x)` rendering. -/
def pyTypeShort : Value → String
  | .vnull => "NoneType"
  | .vbool _ => "bool"
  | .vint _ => "int"
  | .vstr _ => "str"
  | .vlist _ => "list"
  | .vdict _ => "dict"

/-- Rendering of `type(x)` inside an f-string: `<class 'dict'>` etc. -/
def typeName (v : Value) : String := "<class \x27" ++ pyTypeShort v ++ "\x27>"

/-- Is the value a mapping (`isinstance(x, dict)`)? -/
def isDict : Value → Bool
  | .vdict _ => true
  | _ => false

/-- Is the value a list (`isinstance(x, list)`)? -/
def isList : Value → Bool
  | .vlist _ => true
  | _ => false

/-- The Python exceptions raised or caught by the program.
`attributeError` covers `homework.get(...)` on a non-mapping record. -/
inductive Exc : Type where
  | typeError (msg : String) : Exc
  | keyError (msg : String) : Exc
  | valueError (msg : String) : Exc
  | apiRequestError (msg : String) : Exc
  | httpError (msg : String) : Exc
  | attributeError (msg : String) : Exc
  deriving DecidableEq, Repr

/-- Python `str(exc)`: the message, except that `KeyError` renders the
repr of its argument (the message wrapped in single quotes). -/
def excStr : Exc → String
  | .typeError m => m
  | .keyError m => "\x27" ++ m ++ "\x27"
  | .valueError m => m
  | .apiRequestError m => m
  | .httpError m => m
  | .attributeError m => m

/-- Log levels used by the program. -/
inductive LogLevel : Type where
  | debug : LogLevel
  | info : LogLevel
  | error : LogLevel
  | critical : LogLevel
  deriving DecidableEq, Repr

/-- One emitted log line. -/
structure LogEntry : Type where
  level : LogLevel
  msg : String
  deriving DecidableEq, Repr

/-- The three environment-sourced credentials (`os.getenv` results:
a missing variable is `none`). -/
structure Env : Type where
  PRACTICUM_TOKEN : Option String
  TELEGRAM_TOKEN : Option String
  TELEGRAM_CHAT_ID : Option String

/-- Python truthiness of an `os.getenv` result: `None` and `""` are falsy. -/
def pyFalsy : Option String → Bool
  | none => true
  | some s => s == ""

/-- `str(x)` for an `os.getenv` result interpolated into an f-string. -/
def pyStrOpt : Option String → String
  | none => "None"
  | some s => s

/-- Source constant `RETRY_PERIOD`. -/
def RETRY_PERIOD : Nat := 600

/-- Source constant `ENDPOINT`. -/
def ENDPOINT : String := "https://practicum.yandex.ru/api/user_api/homework_statuses/"

/-- Source constant `HOMEWORK_VERDICTS` (fixed three-entry table). -/
def HOMEWORK_VERDICTS : List (String × String) :=
  [("approved", "Работа проверена: ревьюеру всё понравилось. Ура!"),
   ("reviewing", "Работа взята на проверку ревьюером."),
   ("rejected", "Работа проверена: у ревьюера есть замечания.")]

/-- Lookup in a string-to-string table (`HOMEWORK_VERDICTS[s]`). -/
def lookupStr : List (String × String) → String → Option String
  | [], _ => none
  | (k, v) :: rest, key => if k == key then some v else lookupStr rest key

/-- `status in HOMEWORK_VERDICTS` together with the looked-up verdict:
membership holds exactly for the three known status strings.  (Python
would raise `TypeError: unhashable type` when `status` is a list or a
dict; that branch is not modelled and no theorem below depends on it.) -/
def verdictOf : Value → Option String
  | .vstr s => lookupStr HOMEWORK_VERDICTS s
  | _ => none

/-- The association of credential names to values built by
`check_tokens` (source lines 49-53). -/
def tokensTable (env : Env) : List (String × Option String) :=
  [("PRACTICUM_TOKEN", env.PRACTICUM_TOKEN),
   ("TELEGRAM_TOKEN", env.TELEGRAM_TOKEN),
   ("TELEGRAM_CHAT_ID", env.TELEGRAM_CHAT_ID)]

/-- `check_tokens` (source lines 47-61): returns the boolean result and
the critical log lines emitted (one per missing credential). -/
def check_tokens (env : Env) : Bool × List LogEntry :=
  let missing_tokens := ((tokensTable env).filter (fun p => pyFalsy p.2)).map Prod.fst
  if missing_tokens.isEmpty then (true, [])
  else
    (false,
     missing_tokens.map (fun token =>
       ⟨.critical, "Отсутствует обязательная переменная окружения: \"" ++ token ++ "\""⟩))

/-- How the one Telegram send of a cycle behaves: delivered, or failed
with one of the two exception types caught by `send_message`. -/
inductive SendOutcome : Type where
  | delivered : SendOutcome
  | telegramApiError (msg : String) : SendOutcome
  | requestsError (msg : String) : SendOutcome

/-- `send_message` (source lines 64-71): attempts the Telegram send,
catches `TelegramApiException` and `requests.RequestException`, logs and
returns.  The first component is the exception the caller observes
(always `.ok ()`: both failure modes are swallowed); the second is the
emitted log lines. -/
def send_message (sendO : SendOutcome) (message : String) : Except Exc Unit × List LogEntry :=
  match sendO with
  | .delivered => (.ok (), [⟨.debug, "Бот отправил сообщение: \"" ++ message ++ "\""⟩])
  | .telegramApiError err => (.ok (), [⟨.error, "Сбой при отправке сообщения: " ++ err⟩])
  | .requestsError err => (.ok (), [⟨.error, "Сбой при отправке сообщения: " ++ err⟩])

/-- How the one HTTP request of a cycle behaves: a transport-level
failure (`requests.RequestException`), or a completed request with a
status code and a parsed JSON body. -/
inductive HttpOutcome : Type where
  | transportError (msg : String) : HttpOutcome
  | completed (status_code : Nat) (body : Value) : HttpOutcome

/-- The `request_params` dict built by `get_api_answer`
(source lines 76-80). -/
def request_params (env : Env) (timestamp : Value) : Value :=
  .vdict
    [("url", .vstr ENDPOINT),
     ("headers", .vdict [("Authorization", .vstr ("OAuth " ++ pyStrOpt env.PRACTICUM_TOKEN))]),
     ("params", .vdict [("from_date", timestamp)])]

/-- `get_api_answer` (source lines 74-90): transport failure raises
`ApiRequestError`; a non-200 status raises `requests.HTTPError` with the
endpoint, the request parameters and the status code in the message; a
200 response returns the parsed JSON body as-is. -/
def get_api_answer (env : Env) (timestamp : Value) (http : HttpOutcome) : Except Exc Value :=
  match http with
  | .transportError msg =>
      .error (.apiRequestError ("Ошибка запроса к API: " ++ msg))
  | .completed status_code body =>
      if status_code ≠ 200 then
        .error (.httpError
          ("Эндпоинт " ++ ENDPOINT ++ " недоступен. Параметры: "
            ++ pyRepr (request_params env timestamp) ++ "."
            ++ "Код ответа API: " ++ toString status_code))
      else
        .ok body

/-- `check_response` (source lines 93-106): requires a dict, then the
keys `homeworks` and `current_date` (in that order), then `homeworks` a
list.  (Line 105 of the source interpolates `type(response)` — the dict
type — into the message; modelled faithfully.) -/
def check_response (response : Value) : Except Exc Unit :=
  match response with
  | .vdict kvs =>
      if (lookup? kvs "homeworks").isNone then
        .error (.keyError "В ответе API отсутствует ключ homeworks.")
      else if (lookup? kvs "current_date").isNone then
        .error (.keyError "В ответе API отсутствует ключ current_date.")
      else
        match (lookup? kvs "homeworks").getD .vnull with
        | .vlist _ => .ok ()
        | _ => .error (.typeError
            ("Ключ \"homeworks\" не список, а " ++ typeName response ++ "."))
  | v => .error (.typeError
      ("Ответ не словарь, полученный тип данных: " ++ typeName v ++ "."))

/-- `parse_status` (source lines 109-122): requires `homework_name`,
then `status`, then a known status; returns the formatted message.
The loop only ever calls it on a mapping (a non-mapping first record
fails earlier, at `homework.get`), so the argument is the entry list. -/
def parse_status (homework : List (String × Value)) : Except Exc String :=
  if (lookup? homework "homework_name").isNone then
    .error (.keyError "Отсутствует ключ \"homework_name\" в домашке.")
  else if (lookup? homework "status").isNone then
    .error (.keyError "Отсутствует ключ \"status\" в домашке.")
  else
    match verdictOf ((lookup? homework "status").getD .vnull) with
    | none =>
        .error (.valueError
          ("Неопределенный статус: " ++ pyStr ((lookup? homework "status").getD .vnull) ++ "."))
    | some verdict =>
        .ok ("Изменился статус проверки работы \""
          ++ pyStr ((lookup? homework "homework_name").getD .vnull) ++ "\". " ++ verdict)

/-- The loop state of `main` (source lines 135-137): the time cursor,
`last_status` (Python `None` initially, so a `Value`), and `last_error`
(`None` or the text of the last notified error). -/
structure LoopState : Type where
  timestamp : Value
  last_status : Value
  last_error : Option String

/-- Result of the `try` block of one loop iteration: the values
`timestamp` and `last_status` hold at its end, and the messages passed
to `send_message` in it. -/
structure TryOut : Type where
  timestamp : Value
  last_status : Value
  sent : List String

/-- The `try` block of one cycle of `main` (source lines 141-163),
excluding the `last_error = None` reset, which `cycle` performs.
Every raising operation of the block (the API call, the validation,
`homework.get` on a non-mapping, `parse_status`, the send) precedes
both assignments (`last_status`, line 152; `timestamp`, line 161), so
modelling the block in `Except` — error leaves the state untouched —
is faithful to the source's statement order. -/
def tryBody (env : Env) (ts last_status0 : Value) (http : HttpOutcome)
    (sendO : SendOutcome) : Except Exc TryOut :=
  match get_api_answer env ts http with
  | .error e => .error e
  | .ok response =>
    match check_response response with
    | .error e => .error e
    | .ok _ =>
      match response with
      | .vdict kvs =>
        match (lookup? kvs "homeworks").getD (.vlist []) with
        | .vlist hws =>
          match hws with
          | [] =>
              .ok ⟨(lookup? kvs "current_date").getD ts, last_status0, []⟩
          | homework :: _ =>
            match homework with
            | .vdict hw =>
                let current_status := (lookup? hw "status").getD .vnull
                if valueBeq current_status last_status0 then
                  .ok ⟨(lookup? kvs "current_date").getD ts, last_status0, []⟩
                else
                  match parse_status hw with
                  | .error e => .error e
                  | .ok message =>
                    match (send_message sendO message).1 with
                    | .error e => .error e
                    | .ok _ =>
                        .ok ⟨(lookup? kvs "current_date").getD ts, current_status, [message]⟩
            | v => .error (.attributeError
                ("\x27" ++ pyTypeShort v ++ "\x27 object has no attribute \x27get\x27"))
        | _ => .error (.typeError "unreachable: check_response accepted homeworks")
      | _ => .error (.typeError "unreachable: check_response accepted the response")

/-- Observable outcome of one full cycle: the state afterwards and the
messages passed to `send_message`. -/
structure CycleOut : Type where
  state : LoopState
  sent : List String

/-- One iteration of the `while True` loop of `main` (source lines
139-174): the `try` block, the success reset of `last_error`, and the
`except` handler with its de-duplicated error notification. -/
def cycle (env : Env) (st : LoopState) (http : HttpOutcome) (sendO : SendOutcome) : CycleOut :=
  match tryBody env st.timestamp st.last_status http sendO with
  | .ok r => ⟨⟨r.timestamp, r.last_status, none⟩, r.sent⟩
  | .error e =>
      let error_message := "Сбой в работе программы: " ++ excStr e
      if some (excStr e) ≠ st.last_error then
        let _ := send_message sendO error_message
        ⟨⟨st.timestamp, st.last_status, some (excStr e)⟩, [error_message]⟩
      else
        ⟨st, []⟩

/-- Iterated cycles: final state and the concatenation of all messages
passed to `send_message`. -/
def runCycles (env : Env) (st : LoopState) :
    List (HttpOutcome × SendOutcome) → LoopState × List String
  | [] => (st, [])
  | io :: rest =>
      let out := cycle env st io.1 io.2
      let tail := runCycles env out.state rest
      (tail.1, out.sent ++ tail.2)

/-- `str(error)` of the exception a `tryBody` run raised, when it raised. -/
def cycleError? (r : Except Exc TryOut) : Option String :=
  match r with
  | .error e => some (excStr e)
  | .ok _ => none

/-- The `from_date` entry of a request-parameter dict. -/
def paramsFromDate (v : Value) : Option Value :=
  match v with
  | .vdict kvs =>
      match lookup? kvs "params" with
      | some (.vdict ps) => lookup? ps "from_date"
      | _ => none
  | _ => none

/-- A concrete environment with all credentials present (for witnesses). -/
def envA : Env := ⟨some "ya-token", some "tg-token", some "12345"⟩

/-- Containment of one string in another, on the underlying character
lists. -/
def containsStr (big small : String) : Prop :=
  ∃ l r, big.data = l ++ (small.data ++ r)

/-! ## Helper lemmas -/

mutual

/-- `valueBeq` is reflexive (Python `x == x` on program values). -/
theorem valueBeq_refl : ∀ v : Value, valueBeq v v = true
  | .vnull => rfl
  | .vbool b => by simp [valueBeq]
  | .vint n => by simp [valueBeq]
  | .vstr s => by simp [valueBeq]
  | .vlist xs => by simp [valueBeq, valueListBeq_refl xs]
  | .vdict kvs => by simp [valueBeq, valueDictBeq_refl kvs]

/-- `valueListBeq` is reflexive. -/
theorem valueListBeq_refl : ∀ xs : List Value, valueListBeq xs xs = true
  | [] => rfl
  | x :: xs => by simp [valueListBeq, valueBeq_refl x, valueListBeq_refl xs]

/-- `valueDictBeq` is reflexive. -/
theorem valueDictBeq_refl : ∀ kvs : List (String × Value), valueDictBeq kvs kvs = true
  | [] => rfl
  | (k, v) :: kvs => by simp [valueDictBeq, valueBeq_refl v, valueDictBeq_refl kvs]

end

/-- `None == v` holds exactly for `v = None`. -/
theorem valueBeq_vnull (v : Value) : valueBeq .vnull v = true ↔ v = .vnull := by
  cases v <;> simp [valueBeq]

/-- `send_message` swallows both caught failure modes: the exception the
caller observes is always `.ok ()`. -/
theorem send_message_fst (o : SendOutcome) (m : String) : (send_message o m).1 = .ok () := by
  cases o <;> rfl

/-- An `os.getenv` result is truthy exactly when the variable is present
and non-empty. -/
theorem pyFalsy_false_iff (v : Option String) :
    pyFalsy v = false ↔ ∃ s, v = some s ∧ s ≠ "" := by
  cases v with
  | none => simp [pyFalsy]
  | some s => simp [pyFalsy]

/-- Shape of a successful `parse_status` run: both keys were present,
the status was a known one, and the message is the composition of the
fixed prefix, the name and the verdict. -/
theorem parse_status_ok_shape (hw : List (String × Value)) (m : String)
    (h : parse_status hw = .ok m) :
    ∃ nameVal statusVal verdict,
      lookup? hw "homework_name" = some nameVal ∧
      lookup? hw "status" = some statusVal ∧
      verdictOf statusVal = some verdict ∧
      m = "Изменился статус проверки работы \"" ++ pyStr nameVal ++ "\". " ++ verdict := by
  unfold parse_status at h
  cases hn : lookup? hw "homework_name" with
  | none => rw [hn] at h; simp at h
  | some nameVal =>
    rw [hn] at h
    cases hs : lookup? hw "status" with
    | none => rw [hs] at h; simp at h
    | some statusVal =>
      rw [hs] at h
      simp only [Option.isNone_some, Bool.false_eq_true, if_false, Option.getD_some] at h
      cases hv : verdictOf statusVal with
      | none => rw [hv] at h; simp at h
      | some verdict =>
        rw [hv] at h
        simp only [Except.ok.injEq] at h
        exact ⟨nameVal, statusVal, verdict, rfl, rfl, hv, h.symm⟩

/-- Shape of a successful `check_response` run: the response was a dict
with `homeworks` a list and `current_date` present. -/
theorem check_response_ok_shape (v : Value) (h : check_response v = .ok ()) :
    ∃ kvs xs, v = .vdict kvs ∧ lookup? kvs "homeworks" = some (.vlist xs) ∧
      (lookup? kvs "current_date").isSome = true := by
  cases v with
  | vdict kvs =>
    refine ⟨kvs, ?_⟩
    simp only [check_response] at h
    cases hhw : lookup? kvs "homeworks" with
    | none => rw [hhw] at h; simp at h
    | some hv =>
      rw [hhw] at h
      cases hcd : lookup? kvs "current_date" with
      | none => rw [hcd] at h; simp at h
      | some cd =>
        rw [hcd] at h
        simp only [Option.isNone_some, Bool.false_eq_true, if_false, Option.getD_some] at h
        cases hv with
        | vlist xs => exact ⟨xs, rfl, rfl, rfl⟩
        | vnull => simp at h
        | vbool b => simp at h
        | vint n => simp at h
        | vstr s => simp at h
        | vdict kvs2 => simp at h
  | vnull => simp [check_response] at h
  | vbool b => simp [check_response] at h
  | vint n => simp [check_response] at h
  | vstr s => simp [check_response] at h
  | vlist xs => simp [check_response] at h

/-- `check_response` accepts a dict with `homeworks` a list and
`current_date` present. -/
theorem check_response_ok_of (kvs : List (String × Value)) (xs : List Value)
    (hhw : lookup? kvs "homeworks" = some (.vlist xs))
    (hcd : (lookup? kvs "current_date").isSome = true) :
    check_response (.vdict kvs) = .ok () := by
  obtain ⟨cd, hcd⟩ := Option.isSome_iff_exists.mp hcd
  simp [check_response, hhw, hcd]

/-- Reduction of `tryBody` on a valid 200 response whose first homework
record is a mapping: the cycle's behaviour is decided by the comparison
of the first record's status with `last_status` and by `parse_status`. -/
theorem tryBody_nonempty (env : Env) (ts ls : Value) (sendO : SendOutcome)
    (kvs hw : List (String × Value)) (rest : List Value)
    (hhw : lookup? kvs "homeworks" = some (.vlist (Value.vdict hw :: rest)))
    (hcd : (lookup? kvs "current_date").isSome = true) :
    tryBody env ts ls (.completed 200 (.vdict kvs)) sendO =
      (if valueBeq ((lookup? hw "status").getD .vnull) ls then
        .ok ⟨(lookup? kvs "current_date").getD ts, ls, []⟩
      else
        match parse_status hw with
        | .error e => .error e
        | .ok message =>
            .ok ⟨(lookup? kvs "current_date").getD ts, (lookup? hw "status").getD .vnull,
              [message]⟩) := by
  have hga : get_api_answer env ts (.completed 200 (.vdict kvs)) = .ok (.vdict kvs) := by
    simp [get_api_answer]
  have hcr := check_response_ok_of kvs _ hhw hcd
  cases hps : parse_status hw with
  | error e => simp [tryBody, hga, hcr, hhw, hps]
  | ok message => simp [tryBody, hga, hcr, hhw, hps, send_message_fst]

/-- A successful `get_api_answer` means the request completed with
status 200 and returned that body. -/
theorem get_api_answer_ok_shape (env : Env) (ts : Value) (http : HttpOutcome)
    (response : Value) (h : get_api_answer env ts http = .ok response) :
    http = .completed 200 response := by
  cases http with
  | transportError m => simp [get_api_answer] at h
  | completed code body =>
    by_cases hc : code = 200
    · subst hc
      simp only [get_api_answer, ne_eq, not_true_eq_false, if_false, reduceIte,
        Except.ok.injEq] at h
      rw [h]
    · simp [get_api_answer, hc] at h

/-- A successful `tryBody` run implies a 200 response that passed
validation, with a `current_date` that becomes the new timestamp. -/
theorem tryBody_ok_shape (env : Env) (ts ls : Value) (http : HttpOutcome)
    (sendO : SendOutcome) (r : TryOut)
    (h : tryBody env ts ls http sendO = .ok r) :
    ∃ kvs cd, http = .completed 200 (.vdict kvs) ∧
      lookup? kvs "current_date" = some cd ∧ r.timestamp = cd := by
  cases hga : get_api_answer env ts http with
  | error e => simp [tryBody, hga] at h
  | ok response =>
    have hhttp := get_api_answer_ok_shape env ts http response hga
    cases hcr : check_response response with
    | error e => simp [tryBody, hga, hcr] at h
    | ok u =>
      cases u
      obtain ⟨kvs, xs, rfl, hhw, hcdS⟩ := check_response_ok_shape response hcr
      obtain ⟨cd, hcd⟩ := Option.isSome_iff_exists.mp hcdS
      refine ⟨kvs, cd, hhttp, hcd, ?_⟩
      cases xs with
      | nil =>
        simp only [tryBody, hga, hcr, hhw, Option.getD_some, Except.ok.injEq] at h
        rw [← h]
        simp [hcd]
      | cons hw0 tl =>
        cases hw0 with
        | vdict hw =>
          by_cases hbeq : valueBeq ((lookup? hw "status").getD .vnull) ls = true
          · simp only [tryBody, hga, hcr, hhw, Option.getD_some, hbeq, if_true,
              Except.ok.injEq] at h
            rw [← h]
            simp [hcd]
          · simp only [Bool.not_eq_true] at hbeq
            cases hps : parse_status hw with
            | error e => simp [tryBody, hga, hcr, hhw, hbeq, hps] at h
            | ok message =>
              simp only [tryBody, hga, hcr, hhw, Option.getD_some, hbeq,
                Bool.false_eq_true, if_false, hps, send_message_fst, Except.ok.injEq] at h
              rw [← h]
              simp [hcd]
        | vnull => simp [tryBody, hga, hcr, hhw] at h
        | vbool b => simp [tryBody, hga, hcr, hhw] at h
        | vint n => simp [tryBody, hga, hcr, hhw] at h
        | vstr s => simp [tryBody, hga, hcr, hhw] at h
        | vlist ys => simp [tryBody, hga, hcr, hhw] at h

/-! ## Claim theorems -/

/-- C3: `check_response` raises exactly on ill-shaped input and accepts
the rest: non-mapping input gives a type-mismatch error naming the actual
type; a mapping missing `homeworks` (checked first) or `current_date`
gives a missing-key error naming the absent key; a mapping with both keys
but `homeworks` not a sequence gives a type-mismatch error; any mapping
with both keys and `homeworks` a sequence (possibly empty) is accepted. -/
theorem check_response_spec :
    (∀ v : Value, isDict v = false →
      check_response v =
        .error (.typeError ("Ответ не словарь, полученный тип данных: " ++ typeName v ++ "."))) ∧
    (∀ kvs, lookup? kvs "homeworks" = none →
      check_response (.vdict kvs) = .error (.keyError "В ответе API отсутствует ключ homeworks.")) ∧
    (∀ kvs hv, lookup? kvs "homeworks" = some hv → lookup? kvs "current_date" = none →
      check_response (.vdict kvs) = .error (.keyError "В ответе API отсутствует ключ current_date.")) ∧
    (∀ kvs hv cd, lookup? kvs "homeworks" = some hv → lookup? kvs "current_date" = some cd →
      isList hv = false →
      ∃ m, check_response (.vdict kvs) = .error (.typeError m)) ∧
    (∀ kvs xs cd, lookup? kvs "homeworks" = some (.vlist xs) →
      lookup? kvs "current_date" = some cd →
      check_response (.vdict kvs) = .ok ()) := by
  refine ⟨?_, ?_, ?_, ?_, ?_⟩
  · intro v h
    cases v with
    | vdict kvs => simp [isDict] at h
    | vnull => rfl
    | vbool b => rfl
    | vint n => rfl
    | vstr s => rfl
    | vlist xs => rfl
  · intro kvs h
    simp [check_response, h]
  · intro kvs hv h1 h2
    simp [check_response, h1, h2]
  · intro kvs hv cd h1 h2 h3
    refine ⟨"Ключ \"homeworks\" не список, а " ++ typeName (.vdict kvs) ++ ".", ?_⟩
    cases hv with
    | vlist xs => simp [isList] at h3
    | vnull => simp [check_response, h1, h2]
    | vbool b => simp [check_response, h1, h2]
    | vint n => simp [check_response, h1, h2]
    | vstr s => simp [check_response, h1, h2]
    | vdict kvs2 => simp [check_response, h1, h2]
  · intro kvs xs cd h1 h2
    simp [check_response, h1, h2]

/-- Witness for C3: the five cases of `check_response_spec` evaluated at
concrete inputs. -/
theorem check_response_spec_witness :
    check_response (.vstr "nope") =
      .error (.typeError ("Ответ не словарь, полученный тип данных: " ++ typeName (.vstr "nope") ++ ".")) ∧
    check_response (.vdict []) = .error (.keyError "В ответе API отсутствует ключ homeworks.") ∧
    check_response (.vdict [("homeworks", .vlist [])]) =
      .error (.keyError "В ответе API отсутствует ключ current_date.") ∧
    (∃ m, check_response (.vdict [("homeworks", .vint 3), ("current_date", .vint 1)]) =
      .error (.typeError m)) ∧
    check_response (.vdict [("homeworks", .vlist []), ("current_date", .vint 1)]) = .ok () :=
  ⟨check_response_spec.1 (.vstr "nope") rfl,
   check_response_spec.2.1 [] rfl,
   check_response_spec.2.2.1 [("homeworks", .vlist [])] (.vlist []) rfl rfl,
   check_response_spec.2.2.2.1 [("homeworks", .vint 3), ("current_date", .vint 1)]
     (.vint 3) (.vint 1) rfl rfl rfl,
   check_response_spec.2.2.2.2 [("homeworks", .vlist []), ("current_date", .vint 1)]
     [] (.vint 1) rfl rfl⟩

/-- C4, counterexample: a record whose status is the unrecognized
`"in_progress"` but which lacks `homework_name` raises the missing-key
error for `homework_name` (checked first in the source, lines 112-115),
not an unrecognized-status error; likewise this record is "missing
`status`-adjacent" evidence that the missing-key check for
`homework_name` precedes everything else. -/
theorem parse_status_counterexample :
    parse_status [("status", .vstr "in_progress")] =
      .error (.keyError "Отсутствует ключ \"homework_name\" в домашке.") := rfl

/-- C4 as amended: the approved record formats to the exact message; for
a record containing `homework_name`, an unrecognized status string raises
the unrecognized-status error and an absent `status` raises the
missing-key error naming `status`; a record missing `homework_name`
raises the missing-key error naming `homework_name` (that check comes
first). -/
theorem parse_status_spec (hw : List (String × Value)) :
    (parse_status [("homework_name", .vstr "proj1"), ("status", .vstr "approved")] =
      .ok "Изменился статус проверки работы \"proj1\". Работа проверена: ревьюеру всё понравилось. Ура!") ∧
    (∀ nv s, lookup? hw "homework_name" = some nv → lookup? hw "status" = some (.vstr s) →
      lookupStr HOMEWORK_VERDICTS s = none →
      parse_status hw = .error (.valueError ("Неопределенный статус: " ++ s ++ "."))) ∧
    (∀ nv, lookup? hw "homework_name" = some nv → lookup? hw "status" = none →
      parse_status hw = .error (.keyError "Отсутствует ключ \"status\" в домашке.")) ∧
    (lookup? hw "homework_name" = none →
      parse_status hw = .error (.keyError "Отсутствует ключ \"homework_name\" в домашке.")) := by
  refine ⟨rfl, ?_, ?_, ?_⟩
  · intro nv s h1 h2 h3
    simp [parse_status, h1, h2, verdictOf, h3, pyStr]
  · intro nv h1 h2
    simp [parse_status, h1, h2]
  · intro h
    simp [parse_status, h]

/-- Witness for C4: the amended statement evaluated at concrete records. -/
theorem parse_status_spec_witness :
    parse_status [("homework_name", .vstr "proj1"), ("status", .vstr "approved")] =
      .ok "Изменился статус проверки работы \"proj1\". Работа проверена: ревьюеру всё понравилось. Ура!" ∧
    parse_status [("homework_name", .vstr "p"), ("status", .vstr "in_progress")] =
      .error (.valueError ("Неопределенный статус: " ++ "in_progress" ++ ".")) ∧
    parse_status [("homework_name", .vstr "p")] =
      .error (.keyError "Отсутствует ключ \"status\" в домашке.") ∧
    parse_status [] = .error (.keyError "Отсутствует ключ \"homework_name\" в домашке.") :=
  ⟨(parse_status_spec []).1,
   (parse_status_spec [("homework_name", .vstr "p"), ("status", .vstr "in_progress")]).2.1
     (.vstr "p") "in_progress" rfl rfl rfl,
   (parse_status_spec [("homework_name", .vstr "p")]).2.2.1 (.vstr "p") rfl rfl,
   (parse_status_spec []).2.2.2 rfl⟩

/-- C5: `get_api_answer` raises the classified `ApiRequestError` on a
transport-level failure; on a completed request with a non-200 status it
raises a distinct error (`HTTPError`) whose message includes the
endpoint, the request parameters and the observed status code; on a 200
response it returns the parsed body as-is. -/
theorem get_api_answer_spec (env : Env) (ts : Value) :
    (∀ msg, get_api_answer env ts (.transportError msg) =
      .error (.apiRequestError ("Ошибка запроса к API: " ++ msg))) ∧
    (∀ code body, code ≠ 200 →
      ∃ m, get_api_answer env ts (.completed code body) = .error (.httpError m) ∧
        containsStr m ENDPOINT ∧
        containsStr m (pyRepr (request_params env ts)) ∧
        containsStr m (toString code)) ∧
    (∀ body, get_api_answer env ts (.completed 200 body) = .ok body) := by
  refine ⟨fun msg => rfl, ?_, fun body => by simp [get_api_answer]⟩
  intro code body hc
  refine ⟨"Эндпоинт " ++ ENDPOINT ++ " недоступен. Параметры: "
      ++ pyRepr (request_params env ts) ++ "." ++ "Код ответа API: " ++ toString code,
    by simp [get_api_answer, hc], ?_, ?_, ?_⟩
  · refine ⟨"Эндпоинт ".data,
      (" недоступен. Параметры: " ++ pyRepr (request_params env ts) ++ "."
        ++ "Код ответа API: " ++ toString code).data, ?_⟩
    simp [containsStr, String.data_append, List.append_assoc]
  · refine ⟨("Эндпоинт " ++ ENDPOINT ++ " недоступен. Параметры: ").data,
      ("." ++ "Код ответа API: " ++ toString code).data, ?_⟩
    simp [containsStr, String.data_append, List.append_assoc]
  · refine ⟨("Эндпоинт " ++ ENDPOINT ++ " недоступен. Параметры: "
        ++ pyRepr (request_params env ts) ++ "." ++ "Код ответа API: ").data, [], ?_⟩
    simp [containsStr, String.data_append, List.append_assoc]

/-- Witness for C5: the three cases of `get_api_answer_spec` at concrete
inputs. -/
theorem get_api_answer_spec_witness :
    get_api_answer envA (.vint 0) (.transportError "timeout") =
      .error (.apiRequestError ("Ошибка запроса к API: " ++ "timeout")) ∧
    (∃ m, get_api_answer envA (.vint 0) (.completed 404 .vnull) = .error (.httpError m) ∧
      containsStr m ENDPOINT ∧
      containsStr m (pyRepr (request_params envA (.vint 0))) ∧
      containsStr m (toString 404)) ∧
    get_api_answer envA (.vint 0) (.completed 200 (.vdict [])) = .ok (.vdict []) :=
  ⟨(get_api_answer_spec envA (.vint 0)).1 "timeout",
   (get_api_answer_spec envA (.vint 0)).2.1 404 .vnull (by decide),
   (get_api_answer_spec envA (.vint 0)).2.2 (.vdict [])⟩

/-- C7: `check_tokens` returns true exactly when all three credentials
are present and non-empty; otherwise it returns false, and it logs one
critical-level message per missing credential, naming it (and nothing
but critical messages). -/
theorem check_tokens_spec (env : Env) :
    ((check_tokens env).1 = true ↔
      ((∃ s, env.PRACTICUM_TOKEN = some s ∧ s ≠ "") ∧
       (∃ s, env.TELEGRAM_TOKEN = some s ∧ s ≠ "") ∧
       (∃ s, env.TELEGRAM_CHAT_ID = some s ∧ s ≠ ""))) ∧
    ((check_tokens env).2.length =
      (((tokensTable env).filter (fun p => pyFalsy p.2)).map Prod.fst).length) ∧
    (∀ name value, (name, value) ∈ tokensTable env → pyFalsy value = true →
      LogEntry.mk .critical ("Отсутствует обязательная переменная окружения: \"" ++ name ++ "\"")
        ∈ (check_tokens env).2) ∧
    (∀ entry ∈ (check_tokens env).2, entry.level = .critical) := by
  obtain ⟨p, t, c⟩ := env
  refine ⟨?_, ?_, ?_, ?_⟩
  · rw [← pyFalsy_false_iff, ← pyFalsy_false_iff, ← pyFalsy_false_iff]
    by_cases hp : pyFalsy p <;> by_cases ht : pyFalsy t <;> by_cases hc : pyFalsy c <;>
      simp_all [check_tokens, tokensTable]
  · by_cases hp : pyFalsy p <;> by_cases ht : pyFalsy t <;> by_cases hc : pyFalsy c <;>
      simp_all [check_tokens, tokensTable]
  · intro name value hmem hfalsy
    simp only [tokensTable, List.mem_cons, List.not_mem_nil, or_false, Prod.mk.injEq] at hmem
    by_cases hp : pyFalsy p <;> by_cases ht : pyFalsy t <;> by_cases hc : pyFalsy c <;>
      rcases hmem with ⟨rfl, rfl⟩ | ⟨rfl, rfl⟩ | ⟨rfl, rfl⟩ <;>
        simp_all [check_tokens, tokensTable]
  · intro entry hmem
    simp only [check_tokens] at hmem
    split at hmem
    · simp at hmem
    · simp only [List.mem_map] at hmem
      obtain ⟨token, _, rfl⟩ := hmem
      rfl

/-- C1: on a successful poll (200, valid shape, non-empty homeworks,
first record a mapping), a status-change notification is sent if and
only if the first record's status differs from `last_status`: identical
status sends nothing and leaves `last_status` unchanged; a differing
status (with `parse_status` succeeding, i.e. the poll's cycle
succeeding) sends exactly that one message, which carries the verdict
text for the new status, and updates `last_status` to it. -/
theorem status_change_notification_spec (env : Env) (st : LoopState) (sendO : SendOutcome)
    (kvs hw : List (String × Value)) (rest : List Value)
    (hhw : lookup? kvs "homeworks" = some (.vlist (Value.vdict hw :: rest)))
    (hcd : (lookup? kvs "current_date").isSome = true) :
    ((lookup? hw "status").getD .vnull = st.last_status →
      (cycle env st (.completed 200 (.vdict kvs)) sendO).sent = [] ∧
      (cycle env st (.completed 200 (.vdict kvs)) sendO).state.last_status = st.last_status) ∧
    (valueBeq ((lookup? hw "status").getD .vnull) st.last_status = false →
      ∀ m, parse_status hw = .ok m →
        (cycle env st (.completed 200 (.vdict kvs)) sendO).sent = [m] ∧
        (cycle env st (.completed 200 (.vdict kvs)) sendO).state.last_status =
          (lookup? hw "status").getD .vnull ∧
        ∃ verdict, verdictOf ((lookup? hw "status").getD .vnull) = some verdict ∧
          ∃ name, m = "Изменился статус проверки работы \"" ++ name ++ "\". " ++ verdict) := by
  have hred := tryBody_nonempty env st.timestamp st.last_status sendO kvs hw rest hhw hcd
  constructor
  · intro heq
    simp only [heq, valueBeq_refl, reduceIte] at hred
    simp [cycle, hred]
  · intro hne m hm
    rw [hne] at hred
    simp only [Bool.false_eq_true, if_false, hm] at hred
    refine ⟨by simp [cycle, hred], by simp [cycle, hred], ?_⟩
    obtain ⟨nameVal, statusVal, verdict, hn, hs, hv, hmeq⟩ := parse_status_ok_shape hw m hm
    refine ⟨verdict, ?_, pyStr nameVal, hmeq⟩
    rw [hs]
    simpa using hv

/-- Witness for C1: both directions evaluated on concrete polls — an
unchanged `approved` status sends nothing; a change from `reviewing` to
`approved` sends exactly the approved-verdict message. -/
theorem status_change_notification_spec_witness :
    ((cycle envA ⟨.vint 0, .vstr "approved", none⟩
        (.completed 200 (.vdict
          [("homeworks", .vlist [.vdict [("homework_name", .vstr "proj1"),
             ("status", .vstr "approved")]]),
           ("current_date", .vint 7)])) .delivered).sent = [] ∧
     (cycle envA ⟨.vint 0, .vstr "approved", none⟩
        (.completed 200 (.vdict
          [("homeworks", .vlist [.vdict [("homework_name", .vstr "proj1"),
             ("status", .vstr "approved")]]),
           ("current_date", .vint 7)])) .delivered).state.last_status = .vstr "approved") ∧
    ((cycle envA ⟨.vint 0, .vstr "reviewing", none⟩
        (.completed 200 (.vdict
          [("homeworks", .vlist [.vdict [("homework_name", .vstr "proj1"),
             ("status", .vstr "approved")]]),
           ("current_date", .vint 7)])) .delivered).sent =
      ["Изменился статус проверки работы \"proj1\". Работа проверена: ревьюеру всё понравилось. Ура!"] ∧
     (cycle envA ⟨.vint 0, .vstr "reviewing", none⟩
        (.completed 200 (.vdict
          [("homeworks", .vlist [.vdict [("homework_name", .vstr "proj1"),
             ("status", .vstr "approved")]]),
           ("current_date", .vint 7)])) .delivered).state.last_status = .vstr "approved" ∧
     ∃ verdict, verdictOf (.vstr "approved") = some verdict ∧
       ∃ name, "Изменился статус проверки работы \"proj1\". Работа проверена: ревьюеру всё понравилось. Ура!"
         = "Изменился статус проверки работы \"" ++ name ++ "\". " ++ verdict) := by
  constructor
  · exact (status_change_notification_spec envA ⟨.vint 0, .vstr "approved", none⟩ .delivered
      [("homeworks", .vlist [.vdict [("homework_name", .vstr "proj1"),
         ("status", .vstr "approved")]]), ("current_date", .vint 7)]
      [("homework_name", .vstr "proj1"), ("status", .vstr "approved")] [] rfl rfl).1 rfl
  · have h := (status_change_notification_spec envA ⟨.vint 0, .vstr "reviewing", none⟩ .delivered
      [("homeworks", .vlist [.vdict [("homework_name", .vstr "proj1"),
         ("status", .vstr "approved")]]), ("current_date", .vint 7)]
      [("homework_name", .vstr "proj1"), ("status", .vstr "approved")] [] rfl rfl).2 rfl
      "Изменился статус проверки работы \"proj1\". Работа проверена: ревьюеру всё понравилось. Ура!" rfl
    exact h

/-- C6: on every successful cycle the response's `current_date` becomes
the new timestamp (hence the `from_date` parameter of the next request);
when `current_date` is absent from the (mapping) response body, the
cycle fails validation and the previous timestamp is reused unchanged;
and the `from_date` entry of the request parameters built for a
timestamp is that timestamp. -/
theorem cursor_spec (env : Env) (st : LoopState) (sendO : SendOutcome) :
    (∀ http r, tryBody env st.timestamp st.last_status http sendO = .ok r →
      ∃ kvs cd, http = .completed 200 (.vdict kvs) ∧
        lookup? kvs "current_date" = some cd ∧
        (cycle env st http sendO).state.timestamp = cd) ∧
    (∀ code kvs, lookup? kvs "current_date" = none →
      (cycle env st (.completed code (.vdict kvs)) sendO).state.timestamp = st.timestamp) ∧
    (∀ ts2, paramsFromDate (request_params env ts2) = some ts2) := by
  refine ⟨?_, ?_, fun ts2 => rfl⟩
  · intro http r h
    obtain ⟨kvs, cd, hhttp, hcd, hts⟩ := tryBody_ok_shape env st.timestamp st.last_status
      http sendO r h
    exact ⟨kvs, cd, hhttp, hcd, by simp [cycle, h, hts]⟩
  · intro code kvs h
    cases hres : tryBody env st.timestamp st.last_status (.completed code (.vdict kvs)) sendO with
    | ok r =>
      obtain ⟨kvs2, cd, heq, hcd, _⟩ := tryBody_ok_shape env st.timestamp st.last_status
        _ sendO r hres
      obtain ⟨-, hb⟩ := HttpOutcome.completed.inj heq
      obtain rfl := Value.vdict.inj hb
      rw [h] at hcd
      exact absurd hcd (by simp)
    | error e =>
      simp only [cycle, hres]
      split <;> rfl

/-- Witness for C6: the cursor facts at a concrete successful cycle and
a concrete response lacking `current_date`. -/
theorem cursor_spec_witness :
    (∃ kvs cd,
      (HttpOutcome.completed 200 (.vdict [("homeworks", .vlist []), ("current_date", .vint 7)])) =
        .completed 200 (.vdict kvs) ∧
      lookup? kvs "current_date" = some cd ∧
      (cycle envA ⟨.vint 0, .vnull, none⟩
        (.completed 200 (.vdict [("homeworks", .vlist []), ("current_date", .vint 7)]))
        .delivered).state.timestamp = cd) ∧
    (cycle envA ⟨.vint 0, .vnull, none⟩
      (.completed 200 (.vdict [("homeworks", .vlist [])])) .delivered).state.timestamp = .vint 0 ∧
    paramsFromDate (request_params envA (.vint 7)) = some (.vint 7) :=
  ⟨(cursor_spec envA ⟨.vint 0, .vnull, none⟩ .delivered).1
      (.completed 200 (.vdict [("homeworks", .vlist []), ("current_date", .vint 7)]))
      ⟨.vint 7, .vnull, []⟩ rfl,
   (cursor_spec envA ⟨.vint 0, .vnull, none⟩ .delivered).2.1 200 [("homeworks", .vlist [])] rfl,
   (cursor_spec envA ⟨.vint 0, .vnull, none⟩ .delivered).2.2 (.vint 7)⟩

/-- C8, counterexample: with `last_status` still `None` (the initial
state), a validated response whose non-empty `homeworks` has a first
record lacking `status` raises nothing: `homework.get('status')` yields
`None`, which equals `last_status`, so the comparison branch is skipped,
the cycle succeeds, advances the timestamp and sends nothing — no
missing-key error is raised and the error path is not taken. -/
theorem missing_status_counterexample :
    cycle envA ⟨.vint 0, .vnull, none⟩
      (.completed 200 (.vdict
        [("homeworks", .vlist [.vdict [("homework_name", .vstr "proj1")]]),
         ("current_date", .vint 5)])) .delivered
      = ⟨⟨.vint 5, .vnull, none⟩, []⟩ := rfl

/-- C8 as amended: when the validated response's first record contains
`homework_name` but lacks `status` AND the current `last_status` is not
`None` (so the `None` read by `homework.get('status')` differs from it),
the missing-key error naming `status` is raised in step 4 and handled by
the loop's error path: `last_status` and the timestamp are unchanged and
at most the error notification is sent. -/
theorem missing_status_spec (env : Env) (st : LoopState) (sendO : SendOutcome)
    (kvs hw : List (String × Value)) (rest : List Value)
    (hhw : lookup? kvs "homeworks" = some (.vlist (Value.vdict hw :: rest)))
    (hcd : (lookup? kvs "current_date").isSome = true)
    (hname : (lookup? hw "homework_name").isSome = true)
    (hst : lookup? hw "status" = none)
    (hls : st.last_status ≠ .vnull) :
    tryBody env st.timestamp st.last_status (.completed 200 (.vdict kvs)) sendO =
      .error (.keyError "Отсутствует ключ \"status\" в домашке.") ∧
    (cycle env st (.completed 200 (.vdict kvs)) sendO).state.last_status = st.last_status ∧
    (cycle env st (.completed 200 (.vdict kvs)) sendO).state.timestamp = st.timestamp ∧
    ((cycle env st (.completed 200 (.vdict kvs)) sendO).sent = [] ∨
     (cycle env st (.completed 200 (.vdict kvs)) sendO).sent =
       ["Сбой в работе программы: "
         ++ excStr (.keyError "Отсутствует ключ \"status\" в домашке.")]) := by
  have hbeq : valueBeq .vnull st.last_status = false := by
    cases hb : valueBeq .vnull st.last_status with
    | false => rfl
    | true => exact absurd ((valueBeq_vnull st.last_status).mp hb) hls
  have hps : parse_status hw = .error (.keyError "Отсутствует ключ \"status\" в домашке.") := by
    obtain ⟨nv, hnv⟩ := Option.isSome_iff_exists.mp hname
    simp [parse_status, hnv, hst]
  have hred := tryBody_nonempty env st.timestamp st.last_status sendO kvs hw rest hhw hcd
  rw [hst] at hred
  simp only [Option.getD_none, hbeq, Bool.false_eq_true, if_false, hps] at hred
  refine ⟨hred, ?_, ?_, ?_⟩
  · simp only [cycle, hred]
    split <;> rfl
  · simp only [cycle, hred]
    split <;> rfl
  · simp only [cycle, hred]
    split
    · right; rfl
    · left; rfl

/-- Witness for C8: the amended statement at a concrete state with
`last_status = "reviewing"` and a first record lacking `status`. -/
theorem missing_status_spec_witness :
    tryBody envA (.vint 0) (.vstr "reviewing")
      (.completed 200 (.vdict
        [("homeworks", .vlist [.vdict [("homework_name", .vstr "proj1")]]),
         ("current_date", .vint 5)])) .delivered
      = .error (.keyError "Отсутствует ключ \"status\" в домашке.") ∧
    (cycle envA ⟨.vint 0, .vstr "reviewing", none⟩
      (.completed 200 (.vdict
        [("homeworks", .vlist [.vdict [("homework_name", .vstr "proj1")]]),
         ("current_date", .vint 5)])) .delivered).state.last_status = .vstr "reviewing" ∧
    (cycle envA ⟨.vint 0, .vstr "reviewing", none⟩
      (.completed 200 (.vdict
        [("homeworks", .vlist [.vdict [("homework_name", .vstr "proj1")]]),
         ("current_date", .vint 5)])) .delivered).state.timestamp = .vint 0 ∧
    ((cycle envA ⟨.vint 0, .vstr "reviewing", none⟩
      (.completed 200 (.vdict
        [("homeworks", .vlist [.vdict [("homework_name", .vstr "proj1")]]),
         ("current_date", .vint 5)])) .delivered).sent = [] ∨
     (cycle envA ⟨.vint 0, .vstr "reviewing", none⟩
      (.completed 200 (.vdict
        [("homeworks", .vlist [.vdict [("homework_name", .vstr "proj1")]]),
         ("current_date", .vint 5)])) .delivered).sent =
       ["Сбой в работе программы: "
         ++ excStr (.keyError "Отсутствует ключ \"status\" в домашке.")]) :=
  missing_status_spec envA ⟨.vint 0, .vstr "reviewing", none⟩ .delivered
    [("homeworks", .vlist [.vdict [("homework_name", .vstr "proj1")]]),
     ("current_date", .vint 5)]
    [("homework_name", .vstr "proj1")] [] rfl rfl rfl rfl
    (fun h => Value.noConfusion h)

/-- C10: atomicity of loop state on error — whenever the `try` block of
a cycle raises, the cycle ends with `timestamp` and `last_status` equal
to their values at the start of the cycle (only `last_error` may
change). -/
theorem error_cycle_atomicity (env : Env) (st : LoopState) (http : HttpOutcome)
    (sendO : SendOutcome) (e : Exc)
    (h : tryBody env st.timestamp st.last_status http sendO = .error e) :
    (cycle env st http sendO).state.timestamp = st.timestamp ∧
    (cycle env st http sendO).state.last_status = st.last_status := by
  simp only [cycle, h]
  split <;> exact ⟨rfl, rfl⟩

/-- Witness for C10: a transport failure leaves `timestamp` and
`last_status` unchanged. -/
theorem error_cycle_atomicity_witness :
    (cycle envA ⟨.vint 0, .vstr "reviewing", none⟩ (.transportError "down")
      .delivered).state.timestamp = .vint 0 ∧
    (cycle envA ⟨.vint 0, .vstr "reviewing", none⟩ (.transportError "down")
      .delivered).state.last_status = .vstr "reviewing" :=
  error_cycle_atomicity envA ⟨.vint 0, .vstr "reviewing", none⟩ (.transportError "down")
    .delivered (.apiRequestError ("Ошибка запроса к API: " ++ "down")) rfl

/-- The observable cycle result does not depend on how the send went:
`send_message` swallows its failures, so `tryBody` behaves identically
for any send outcome. -/
theorem tryBody_send_invariant (env : Env) (ts ls : Value) (http : HttpOutcome)
    (o1 o2 : SendOutcome) :
    tryBody env ts ls http o1 = tryBody env ts ls http o2 := by
  simp only [tryBody, send_message_fst]

/-- C9: notification delivery is best-effort and non-propagating — for
every message, `send_message` returns normally (`.ok ()`) whatever the
transport does, logging the failure when one occurs; consequently the
cycle's resulting state and sent messages are identical whatever the
send outcome (a delivery failure never aborts the loop and never changes
loop state). -/
theorem send_failure_nonpropagating :
    (∀ o m, (send_message o m).1 = .ok ()) ∧
    (∀ err m,
      (send_message (.telegramApiError err) m).2 =
        [⟨.error, "Сбой при отправке сообщения: " ++ err⟩] ∧
      (send_message (.requestsError err) m).2 =
        [⟨.error, "Сбой при отправке сообщения: " ++ err⟩]) ∧
    (∀ env st http o1 o2, cycle env st http o1 = cycle env st http o2) := by
  refine ⟨send_message_fst, fun err m => ⟨rfl, rfl⟩, ?_⟩
  intro env st http o1 o2
  simp only [cycle, tryBody_send_invariant env st.timestamp st.last_status http o1 o2]

/-- An error cycle either notifies the error (when its text differs from
`last_error`) and records it, or changes nothing. -/
theorem cycle_error_branch (env : Env) (st : LoopState) (http : HttpOutcome)
    (sendO : SendOutcome) (e : Exc)
    (h : tryBody env st.timestamp st.last_status http sendO = .error e) :
    cycle env st http sendO =
      (if some (excStr e) ≠ st.last_error then
        ⟨⟨st.timestamp, st.last_status, some (excStr e)⟩,
          ["Сбой в работе программы: " ++ excStr e]⟩
      else ⟨st, []⟩) := by
  simp only [cycle, h]

/-- A run of cycles that all raise errors with the already-recorded
message `m` sends nothing and leaves the state unchanged. -/
theorem runCycles_suppressed (env : Env) (st : LoopState) (m : String)
    (inputs : List (HttpOutcome × SendOutcome))
    (hle : st.last_error = some m)
    (hall : ∀ io ∈ inputs,
      cycleError? (tryBody env st.timestamp st.last_status io.1 io.2) = some m) :
    runCycles env st inputs = (st, []) := by
  revert hall
  induction inputs with
  | nil => intro _; rfl
  | cons io rest ih =>
    intro hall
    have hio := hall io (List.mem_cons_self io rest)
    cases htb : tryBody env st.timestamp st.last_status io.1 io.2 with
    | ok r => rw [htb] at hio; simp [cycleError?] at hio
    | error e =>
      rw [htb] at hio
      simp only [cycleError?, Option.some.injEq] at hio
      have hcy := cycle_error_branch env st io.1 io.2 e htb
      rw [hio, hle] at hcy
      rw [if_neg (fun hcontra => hcontra rfl)] at hcy
      have htail := ih (fun io2 h2 => hall io2 (List.mem_cons_of_mem io h2))
      simp [runCycles, hcy, htail]

/-- C2: error notifications are de-duplicated by message text — an error
cycle notifies exactly when its text differs from `last_error`, and
records the text; a successful cycle resets `last_error` to none (so a
later recurrence re-notifies); and a maximal run of consecutive cycles
all raising errors with the same text `m` (entered with `last_error ≠
m`) sends exactly one chat notification, carrying that text. -/
theorem error_dedup_spec (env : Env) (st : LoopState) :
    (∀ http sendO e, tryBody env st.timestamp st.last_status http sendO = .error e →
      ((st.last_error ≠ some (excStr e) →
        cycle env st http sendO =
          ⟨⟨st.timestamp, st.last_status, some (excStr e)⟩,
            ["Сбой в работе программы: " ++ excStr e]⟩) ∧
       (st.last_error = some (excStr e) →
        cycle env st http sendO = ⟨st, []⟩))) ∧
    (∀ http sendO r, tryBody env st.timestamp st.last_status http sendO = .ok r →
      (cycle env st http sendO).state.last_error = none) ∧
    (∀ m inputs, inputs ≠ [] → st.last_error ≠ some m →
      (∀ io ∈ inputs,
        cycleError? (tryBody env st.timestamp st.last_status io.1 io.2) = some m) →
      runCycles env st inputs =
        (⟨st.timestamp, st.last_status, some m⟩, ["Сбой в работе программы: " ++ m])) := by
  refine ⟨?_, ?_, ?_⟩
  · intro http sendO e h
    have hcy := cycle_error_branch env st http sendO e h
    constructor
    · intro hne
      rw [if_pos (fun hcontra => hne hcontra.symm)] at hcy
      exact hcy
    · intro heq
      rw [if_neg (fun hcontra => hcontra heq.symm)] at hcy
      exact hcy
  · intro http sendO r h
    simp [cycle, h]
  · intro m inputs hne0 hne hall
    cases inputs with
    | nil => exact absurd rfl hne0
    | cons io rest =>
      have hio := hall io (List.mem_cons_self io rest)
      cases htb : tryBody env st.timestamp st.last_status io.1 io.2 with
      | ok r => rw [htb] at hio; simp [cycleError?] at hio
      | error e =>
        rw [htb] at hio
        simp only [cycleError?, Option.some.injEq] at hio
        have hcy := cycle_error_branch env st io.1 io.2 e htb
        rw [hio] at hcy
        rw [if_pos (fun hcontra => hne hcontra.symm)] at hcy
        have htail := runCycles_suppressed env ⟨st.timestamp, st.last_status, some m⟩ m rest
          rfl (fun io2 h2 => hall io2 (List.mem_cons_of_mem io h2))
        simp [runCycles, hcy, htail]

/-- Witness for C2: two consecutive identical transport failures notify
exactly once; a successful cycle resets `last_error` to none. -/
theorem error_dedup_spec_witness :
    runCycles envA ⟨.vint 0, .vnull, none⟩
      [(.transportError "down", .delivered), (.transportError "down", .delivered)] =
      (⟨.vint 0, .vnull, some ("Ошибка запроса к API: " ++ "down")⟩,
       ["Сбой в работе программы: " ++ ("Ошибка запроса к API: " ++ "down")]) ∧
    (cycle envA ⟨.vint 0, .vnull, some "old error"⟩
      (.completed 200 (.vdict [("homeworks", .vlist []), ("current_date", .vint 7)]))
      .delivered).state.last_error = none :=
  ⟨(error_dedup_spec envA ⟨.vint 0, .vnull, none⟩).2.2
      ("Ошибка запроса к API: " ++ "down")
      [(.transportError "down", .delivered), (.transportError "down", .delivered)]
      (by simp) (by simp)
      (fun io hio => by
        rcases List.mem_cons.mp hio with rfl | hio2
        · rfl
        · rcases List.mem_cons.mp hio2 with rfl | h3
          · rfl
          · simp at h3),
   (error_dedup_spec envA ⟨.vint 0, .vnull, some "old error"⟩).2.1
      (.completed 200 (.vdict [("homeworks", .vlist []), ("current_date", .vint 7)]))
      .delivered ⟨.vint 7, .vnull, []⟩ rfl⟩

/-- Witness for C7: `check_tokens` evaluated on a concrete environment
with one absent and one empty credential. -/
theorem check_tokens_spec_witness :
    ((check_tokens ⟨none, some "tg-token", some ""⟩).1 = true ↔
      ((∃ s, (none : Option String) = some s ∧ s ≠ "") ∧
       (∃ s, (some "tg-token" : Option String) = some s ∧ s ≠ "") ∧
       (∃ s, (some "" : Option String) = some s ∧ s ≠ ""))) ∧
    LogEntry.mk .critical
        ("Отсутствует обязательная переменная окружения: \"" ++ "PRACTICUM_TOKEN" ++ "\"")
      ∈ (check_tokens ⟨none, some "tg-token", some ""⟩).2 :=
  ⟨(check_tokens_spec ⟨none, some "tg-token", some ""⟩).1,
   (check_tokens_spec ⟨none, some "tg-token", some ""⟩).2.2.1 "PRACTICUM_TOKEN" none
     (by simp [tokensTable]) rfl⟩

end HomeworkBot
